import Mathlib

/-
  Verification of the predictive-coding RNN navigation model (model.py).

  Shallow embedding conventions:
  * float32 tensors are embedded over the rationals (ℚ) except where the code
    applies a transcendental function (tf.log), where the reals are used;
  * the mask / reward tensors have shape [batch, 1] and every operation on
    them in the source (tf.equal, *, tf.cast) is elementwise, so they are
    embedded per batch element as scalar sequences; the environment
    collaborator (stimulus_access.agent_action) is abstracted as an arbitrary
    per-step feedback function, which covers every value it could return;
  * [T, B, A] tensors are embedded as functions Fin T → Fin B → Fin A → ℝ.
-/

/- model.py line 32: self.time_mask = tf.unstack(tf.ones([T, B]), axis=0) -/
def time_mask (_t : ℕ) : ℚ := 1

/- model.py lines 141-152, per batch element.  State is (mask, reward) as it
   stands at the end of a loop iteration.  Step t first updates the mask from
   the previous reward (continue_trial), then produces the reward, forcing the
   environment feedback to the failure penalty in the last two steps. -/
def maskRewardStep (T : ℕ) (penalty : ℚ) (feedback : ℕ → ℚ) (t : ℕ)
    (s : ℚ × ℚ) : ℚ × ℚ :=
  let continue_trial : ℚ := if s.2 = 0 then 1 else 0
  let mask := s.1 * continue_trial
  let fb := if t < T - 2 then feedback t else penalty
  (mask, fb * mask * time_mask t)

/- model.py lines 81, 95, 100-162: loopState T p f (t+1) is the (mask, reward)
   pair recorded at time step t (self.mask[t], self.reward[t]); loopState 0 is
   the pre-loop initialization mask = 1, reward = 0. -/
def loopState (T : ℕ) (penalty : ℚ) (feedback : ℕ → ℚ) : ℕ → ℚ × ℚ
  | 0 => (1, 0)
  | t + 1 => maskRewardStep T penalty feedback t (loopState T penalty feedback t)

theorem loopState_mask_nonneg (T : ℕ) (p : ℚ) (f : ℕ → ℚ) :
    ∀ t, 0 ≤ (loopState T p f t).1 := by
  intro t
  induction t with
  | zero => norm_num [loopState]
  | succ n ih =>
    simp only [loopState, maskRewardStep]
    split
    · simpa using ih
    · simp

theorem loopState_mask_step (T : ℕ) (p : ℚ) (f : ℕ → ℚ) (t : ℕ) :
    (loopState T p f (t + 1)).1 ≤ (loopState T p f t).1 := by
  simp only [loopState, maskRewardStep]
  split
  · simp
  · simpa using loopState_mask_nonneg T p f t

theorem loopState_mask_zero_step (T : ℕ) (p : ℚ) (f : ℕ → ℚ) (t : ℕ)
    (h : (loopState T p f t).1 = 0) : (loopState T p f (t + 1)).1 = 0 := by
  simp only [loopState, maskRewardStep]
  split <;> simp [h]

theorem loopState_mask_zero_after (T : ℕ) (p : ℚ) (f : ℕ → ℚ) (t : ℕ)
    (h : (loopState T p f t).1 = 0) :
    ∀ s, t ≤ s → (loopState T p f s).1 = 0 := by
  have key : ∀ k, (loopState T p f (t + k)).1 = 0 := by
    intro k
    induction k with
    | zero => simpa using h
    | succ n ih => exact loopState_mask_zero_step T p f (t + n) ih
  intro s hs
  obtain ⟨k, rfl⟩ := Nat.exists_eq_add_of_le hs
  exact key k

/-- C8: for every run of the loop (any horizon, penalty and environment
feedback), every batch element and every time step t > 0, the recorded
continuation mask satisfies mask[t] ≤ mask[t−1], and once the recorded mask is
zero it stays zero for the rest of the sequence.  (mask[t] is the first
component of loopState (t+1).) -/
theorem C8_mask_nonincreasing (T : ℕ) (p : ℚ) (f : ℕ → ℚ) (t : ℕ)
    (_ht : 0 < t) (_hT : t < T) :
    (loopState T p f (t + 1)).1 ≤ (loopState T p f t).1 ∧
      ((loopState T p f (t + 1)).1 = 0 →
        ∀ s, t ≤ s → s < T → (loopState T p f (s + 1)).1 = 0) := by
  refine ⟨loopState_mask_step T p f t, ?_⟩
  intro h0 s hs _
  exact loopState_mask_zero_after T p f (t + 1) h0 (s + 1) (by omega)

/-- C8 witness: the mask inequality and zero-absorption at a concrete run
(T = 3, penalty −1, environment feedback constantly 0, step t = 1). -/
theorem C8_mask_nonincreasing_witness :
    (loopState 3 (-1) (fun _ => 0) 2).1 ≤ (loopState 3 (-1) (fun _ => 0) 1).1 :=
  (C8_mask_nonincreasing 3 (-1) (fun _ => 0) 1 (by decide) (by decide)).1

/-- C5 counterexample: horizon T = 4 with environment feedback 3 at step 1.
At step t = 2 (the first of the last two steps) the mask at step entry,
self.mask[1] = (loopState 4 (-1) f 2).1, equals 1, yet the recorded reward
self.reward[2] = (loopState 4 (-1) f 3).2 is 0, not the failure penalty −1:
the within-step mask update (from the previous nonzero reward) runs before the
reward assignment, so the claim as stated fails. -/
theorem C5_counterexample :
    (loopState 4 (-1) (fun t => if t = 1 then 3 else 0) 2).1 = 1 ∧
      4 - 2 ≤ 2 ∧ 2 < 4 ∧
      (loopState 4 (-1) (fun t => if t = 1 then 3 else 0) 3).2 ≠ -1 := by
  norm_num [loopState, maskRewardStep, time_mask]

/-- C5 (amended): in the last two time steps of every sequence the recorded
reward equals failure_penalty × the mask recorded at that same step (the mask
after the within-step update), for every environment feedback; in particular
it equals the penalty exactly where the updated mask is 1 (i.e. where the mask
at step entry was 1 and the previous step's reward was zero) and 0 where the
trial had already ended. -/
theorem C5_forced_penalty (T : ℕ) (p : ℚ) (f : ℕ → ℚ) (t : ℕ)
    (h1 : T - 2 ≤ t) (_h2 : t < T) :
    (loopState T p f (t + 1)).2 = p * (loopState T p f (t + 1)).1 := by
  have hnot : ¬ t < T - 2 := by omega
  simp only [loopState, maskRewardStep, hnot, if_false, time_mask]
  ring

/-- C5 witness: the amended statement evaluated at T = 3, penalty −2,
feedback constantly 5, step t = 2. -/
theorem C5_forced_penalty_witness :
    (loopState 3 (-2) (fun _ => 5) 3).2 = -2 * (loopState 3 (-2) (fun _ => 5) 3).1 :=
  C5_forced_penalty 3 (-2) (fun _ => 5) 2 (by decide) (by decide)

/- Vector and matrix helpers for the [1, n] row tensors of model.py.  A row
   vector is a List ℚ; a weight matrix is its list of rows, so that h @ W is
   the fold of the h-scaled rows. -/
def vecAdd (u v : List ℚ) : List ℚ := List.zipWith (fun a b => a + b) u v

def vecSub (u v : List ℚ) : List ℚ := List.zipWith (fun a b => a - b) u v

def scaleRow (c : ℚ) (row : List ℚ) : List ℚ := row.map (fun w => c * w)

def rowMatMul (h : List ℚ) (W : List (List ℚ)) (width : ℕ) : List ℚ :=
  (List.zipWith scaleRow h W).foldl vecAdd (List.replicate width 0)

/- tf.nn.relu, elementwise -/
def relu (v : ℚ) : ℚ := max 0 v

/- model.py lines 175-176: the linear prediction h @ W_pred + b_pred of the
   cell's input, and the two rectified halves of the residual. -/
def predictionOf (h : List ℚ) (W : List (List ℚ)) (b : List ℚ) : List ℚ :=
  vecAdd (rowMatMul h W b.length) b

def pos_err (x h : List ℚ) (W : List (List ℚ)) (b : List ℚ) : List ℚ :=
  (vecSub x (predictionOf h W b)).map relu

def neg_err (x h : List ℚ) (W : List (List ℚ)) (b : List ℚ) : List ℚ :=
  (vecSub (predictionOf h W b) x).map relu

/- model.py line 177: error_signal = tf.concat([pos_err, neg_err], axis=-1) -/
def errorSignalOf (x h : List ℚ) (W : List (List ℚ)) (b : List ℚ) : List ℚ :=
  pos_err x h W b ++ neg_err x h W b

/-- C9: for every input x, hidden state h and per-layer prediction weights
(W, b), both halves of the ErrorSignal — pos_err = relu(x − h@W − b) and
neg_err = relu(h@W + b − x) — are elementwise ≥ 0 and have equal shapes
(equal lengths; batch rows are embedded one at a time). -/
theorem C9_error_signal_nonneg (x h : List ℚ) (W : List (List ℚ)) (b : List ℚ) :
    (∀ v ∈ pos_err x h W b, 0 ≤ v) ∧ (∀ v ∈ neg_err x h W b, 0 ≤ v) ∧
      (pos_err x h W b).length = (neg_err x h W b).length := by
  refine ⟨?_, ?_, ?_⟩
  · intro v hv
    obtain ⟨w, _, rfl⟩ := List.mem_map.mp hv
    exact le_max_left 0 w
  · intro v hv
    obtain ⟨w, _, rfl⟩ := List.mem_map.mp hv
    exact le_max_left 0 w
  · simp [pos_err, neg_err, vecSub, Nat.min_comm]

/-- C9 witness: a rectified error entry evaluated at a concrete input
(x = [3], empty hidden state, prediction bias [0]) is indeed ≥ 0. -/
theorem C9_error_signal_nonneg_witness : (0 : ℚ) ≤ 3 :=
  (C9_error_signal_nonneg [3] [] [] [0]).1 3 (by
    simp [pos_err, predictionOf, rowMatMul, vecAdd, vecSub, relu])

/- model.py lines 119-128.  The error signal of a cell is split into its
   positive half (columns < P, P = n_input + 1 + n_pol) and negative half
   (columns ≥ P); the first n_input columns of each half are concatenated and
   the strided slices v[0::2], v[1::2] are combined with tf.maximum to form
   the error forwarded to the next layer up. -/
def strideTwo : List ℚ → List ℚ
  | [] => []
  | [a] => [a]
  | a :: _ :: rest => a :: strideTwo rest

def forwardedError (nInput P : ℕ) (errSig : List ℚ) : List ℚ :=
  let es0 := (errSig.take P).take nInput
  let es1 := (errSig.drop P).take nInput
  let v := es0 ++ es1
  List.zipWith max (strideTwo v) (strideTwo v.tail)

/- The forwarded error the spec describes: at each input-channel position the
   maximum of the paired positive and negative channels. -/
def forwardedErrorClaimed (nInput P : ℕ) (errSig : List ℚ) : List ℚ :=
  List.zipWith max ((errSig.take P).take nInput) ((errSig.drop P).take nInput)

/- Adjacent-pair maxima of a single list. -/
def pairAdjMax : List ℚ → List ℚ
  | a :: b :: rest => max a b :: pairAdjMax rest
  | _ => []

theorem strideTwo_zip_max (l : List ℚ) :
    List.zipWith max (strideTwo l) (strideTwo l.tail) = pairAdjMax l := by
  match l with
  | [] => rfl
  | [a] => rfl
  | [a, b] => rfl
  | a :: b :: c :: rest =>
    show max a b :: List.zipWith max (strideTwo (c :: rest)) (strideTwo rest)
        = max a b :: pairAdjMax (c :: rest)
    rw [show strideTwo rest = strideTwo (c :: rest).tail from rfl,
      strideTwo_zip_max (c :: rest)]

/-- C2 counterexample: with two stimulus channels (n_input = 2, so the
positive half is [0, 5] and the negative half is [3, 0] after taking the
first n_input columns of each half of the error signal), the code forwards
[max 0 5, max 3 0] = [5, 3] — the strided slices of the concatenation pair
the two positive channels together and the two negative channels together —
while the claimed per-position positive/negative maximum is
[max 0 3, max 5 0] = [3, 5]. -/
theorem C2_counterexample :
    forwardedError 2 4 [0, 5, 9, 9, 3, 0, 9, 9]
      ≠ forwardedErrorClaimed 2 4 [0, 5, 9, 9, 3, 0, 9, 9] := by
  norm_num [forwardedError, forwardedErrorClaimed, strideTwo]

/-- C2 (amended): for every layer and time step, the error forwarded to the
next layer up is obtained by concatenating the first n_input positive-half
channels with the first n_input negative-half channels and taking the maximum
of each adjacent pair of that concatenation (entries 2k and 2k+1) — pairing
positive channels with positive and negative with negative whenever n_input
is even, and coinciding with the claimed per-position positive/negative
maximum only when n_input = 1. -/
theorem C2_forwarded_error_adjacent_pairs (nInput P : ℕ) (errSig : List ℚ) :
    forwardedError nInput P errSig
      = pairAdjMax ((errSig.take P).take nInput ++ (errSig.drop P).take nInput) := by
  simpa [forwardedError] using
    strideTwo_zip_max ((errSig.take P).take nInput ++ (errSig.drop P).take nInput)

/- model.py line 115: x = tf.concat([x, reward*i, action*i], axis=-1), where i
   is the layer index, reward is the [B,1] reward and action the [B,n_pol]
   one-hot action from the end of the previous iteration (per batch row). -/
def layerInput (i : ℕ) (below reward action : List ℚ) : List ℚ :=
  below ++ reward.map (fun r => r * (i : ℚ)) ++ action.map (fun a => a * (i : ℚ))

/- The bottom-up input the spec describes: the layer input concatenated with
   the reward and action themselves. -/
def layerInputClaimed (below reward action : List ℚ) : List ℚ :=
  below ++ reward ++ action

/- The bottom-up input with the reward and action scaled by the layer index. -/
def layerInputScaled (i : ℕ) (below reward action : List ℚ) : List ℚ :=
  below ++ reward.map (fun r => (i : ℚ) * r) ++ action.map (fun a => (i : ℚ) * a)

/-- C3 counterexample: at the lowest layer (i = 0) with observation [5],
reward [2] and action [1, 0], the code builds the cell input
[5, 2·0, 1·0, 0·0] = [5, 0, 0, 0], not the claimed concatenation
[5, 2, 1, 0]: the reward and action are multiplied by the layer index, so
layer 0 receives zeros. -/
theorem C3_counterexample :
    layerInput 0 [5] [2] [1, 0] ≠ layerInputClaimed [5] [2] [1, 0] := by
  norm_num [layerInput, layerInputClaimed]

/-- C3 (amended): at every time step and for every layer i, the bottom-up
input given to predictive cell i is that layer's input (raw observation for
layer 0, forwarded error signal otherwise) concatenated with i × the current
scalar reward and i × the current action — so layer 0 receives zeros in the
reward and action slots, layer 1 receives them unscaled, and higher layers
receive them multiplied by the layer index. -/
theorem C3_layer_input_scaled (i : ℕ) (below reward action : List ℚ) :
    layerInput i below reward action = layerInputScaled i below reward action := by
  simp [layerInput, layerInputScaled, mul_comm]

/- model.py lines 252-259 (RL branch of optimize), per batch element:
   val_out is padded with one trailing zero step, the terminal indicator is
   cast(reward ≠ 0), and pred_val bootstraps one step ahead. -/
def terminal_state (r : ℚ) : ℚ := if r = 0 then 0 else 1

def paddedValOut (T : ℕ) (valOut : ℕ → ℚ) (t : ℕ) : ℚ :=
  if t < T then valOut t else 0

def pred_val (T : ℕ) (discount : ℚ) (reward valOut : ℕ → ℚ) (t : ℕ) : ℚ :=
  reward t + discount * paddedValOut T valOut (t + 1) * (1 - terminal_state (reward t))

def advantage (T : ℕ) (discount : ℚ) (reward valOut : ℕ → ℚ) (t : ℕ) : ℚ :=
  pred_val T discount reward valOut t - valOut t

/-- C7: at every time step t and for every batch element whose terminal
indicator is 1 (equivalently, whose reward at t is nonzero — terminal_state
is the cast of reward ≠ 0), the bootstrap target pred_val at t equals the
reward at t exactly, with no contribution from the next value estimate and
for every discount rate. -/
theorem C7_terminal_pred_val (T : ℕ) (discount : ℚ) (reward valOut : ℕ → ℚ)
    (t : ℕ) (h : terminal_state (reward t) = 1) :
    pred_val T discount reward valOut t = reward t := by
  simp [pred_val, h]

/-- C7 witness: with constant reward 5 and value estimate 7, at discount 9/10
the bootstrap target at step 0 is exactly 5. -/
theorem C7_terminal_pred_val_witness :
    pred_val 3 (9/10) (fun _ => 5) (fun _ => 7) 0 = 5 :=
  C7_terminal_pred_val 3 (9/10) (fun _ => 5) (fun _ => 7) 0 (by
    norm_num [terminal_state])

/- model.py lines 356-376 (pathint_stabilization, RL branch), elementwise on
   each parameter-shaped tensor flattened to a list:
   update_big_omega: big_omega += abs(small_omega) / (omega_xi + small_omega_div)
   reset_small_omega: small_omega := small_omega * 0.0 (and likewise its
   divisor). -/
def zipWith3Q (f : ℚ → ℚ → ℚ → ℚ) : List ℚ → List ℚ → List ℚ → List ℚ
  | a :: as, b :: bs, c :: cs => f a b c :: zipWith3Q f as bs cs
  | _, _, _ => []

def update_big_omega_RL (xi : ℚ) (bigOm smallOm smallOmDiv : List ℚ) : List ℚ :=
  zipWith3Q (fun bo so sod => bo + |so| / (xi + sod)) bigOm smallOm smallOmDiv

/- The increment the spec describes: small_accumulator / (ξ + divisor),
   without the absolute value. -/
def update_big_omega_claimed (xi : ℚ) (bigOm smallOm smallOmDiv : List ℚ) : List ℚ :=
  zipWith3Q (fun bo so sod => bo + so / (xi + sod)) bigOm smallOm smallOmDiv

def reset_small_omega (v : List ℚ) : List ℚ := v.map (fun x => x * 0)

theorem zipWith3Q_getD (f : ℚ → ℚ → ℚ → ℚ) (as bs cs : List ℚ) (k : ℕ)
    (h1 : k < as.length) (h2 : k < bs.length) (h3 : k < cs.length) :
    (zipWith3Q f as bs cs).getD k 0 = f (as.getD k 0) (bs.getD k 0) (cs.getD k 0) := by
  induction as generalizing bs cs k with
  | nil => simp at h1
  | cons a as ih =>
    cases bs with
    | nil => simp at h2
    | cons b bs =>
      cases cs with
      | nil => simp at h3
      | cons c cs =>
        cases k with
        | zero => rfl
        | succ k =>
          simp only [zipWith3Q, List.getD_cons_succ]
          exact ih bs cs k (by simpa using h1) (by simpa using h2) (by simpa using h3)

theorem reset_small_omega_eq_zeros (v : List ℚ) :
    reset_small_omega v = List.replicate v.length 0 := by
  induction v with
  | nil => rfl
  | cons a v ih =>
    simp only [reset_small_omega, List.map_cons, mul_zero, List.length_cons,
      List.replicate_succ, List.cons.injEq, true_and]
    simpa only [reset_small_omega, mul_zero] using ih

/-- C1 counterexample: with ξ = 1/10, importance 0, small accumulator −1 and
divisor 0, the code increments the importance weight by
|−1| / (1/10 + 0) = 10 (tf.abs is applied to the accumulator in the RL
branch), whereas the claimed increment small_accumulator / (ξ + divisor)
would give −10. -/
theorem C1_counterexample :
    update_big_omega_RL (1/10) [0] [-1] [0]
      ≠ update_big_omega_claimed (1/10) [0] [-1] [0] := by
  norm_num [update_big_omega_RL, update_big_omega_claimed, zipWith3Q]

/-- C1 (amended): for the online importance-tracking (pathint) strategy in RL
mode, the task-end consolidate operation increments every trainable
parameter's importance weight elementwise by exactly
|small_accumulator| / (ξ + small_accumulator_divisor) — the absolute value of
the small accumulator divided by ξ plus the divisor — and the reset operation
sets both the small accumulator and its divisor to zero for every parameter. -/
theorem C1_pathint_consolidate (xi : ℚ) (bo so sod : List ℚ) (k : ℕ)
    (h1 : k < bo.length) (h2 : k < so.length) (h3 : k < sod.length) :
    (update_big_omega_RL xi bo so sod).getD k 0
        = bo.getD k 0 + |so.getD k 0| / (xi + sod.getD k 0) ∧
      reset_small_omega so = List.replicate so.length 0 ∧
      reset_small_omega sod = List.replicate sod.length 0 :=
  ⟨zipWith3Q_getD _ bo so sod k h1 h2 h3,
    reset_small_omega_eq_zeros so, reset_small_omega_eq_zeros sod⟩

/-- C1 witness: the amended consolidate/reset behaviour evaluated at ξ = 1/10,
importance [2], small accumulator [−3], divisor [1]. -/
theorem C1_pathint_consolidate_witness :
    (update_big_omega_RL (1/10) [2] [-3] [1]).getD 0 0
        = ([2] : List ℚ).getD 0 0 + |([-3] : List ℚ).getD 0 0| / (1/10 + ([1] : List ℚ).getD 0 0) ∧
      reset_small_omega [-3] = List.replicate ([-3] : List ℚ).length 0 ∧
      reset_small_omega [1] = List.replicate ([1] : List ℚ).length 0 :=
  C1_pathint_consolidate (1/10) [2] [-3] [1] 0 (by decide) (by decide) (by decide)

/- model.py lines 30-41 and 620-631.  Model.__init__ declares the variables,
   unrolls the graph and builds the optimizer; main() dispatches on the
   configured training method and only reaches Model construction (inside
   reinforcement_learning) in the RL branch — both non-RL branches raise
   before any model state exists. -/
structure ModelGraph where
  variablesDeclared : Bool
  graphUnrolled : Bool
  optimizerBuilt : Bool
deriving DecidableEq

def buildModel : ModelGraph := ⟨true, true, true⟩

def mainDispatch (training_method : String) : Except String ModelGraph :=
  if training_method = "SL" then
    Except.error "This code does not support supervised learning at this time."
  else if training_method = "RL" then
    Except.ok buildModel
  else
    Except.error "Select a valid learning method."

/-- C6: if the configured training method is not RL (in particular SL),
construction fails immediately with the explicit unsupported-mode error of
main(), and no model graph is ever produced — the error is raised before
Model construction is reached. -/
theorem C6_non_RL_fails (m : String) (h : m ≠ "RL") :
    mainDispatch m
        = Except.error (if m = "SL"
            then "This code does not support supervised learning at this time."
            else "Select a valid learning method.") ∧
      ∀ g : ModelGraph, mainDispatch m ≠ Except.ok g := by
  constructor
  · by_cases hs : m = "SL" <;> simp [mainDispatch, hs, h]
  · intro g hg
    by_cases hs : m = "SL" <;> simp [mainDispatch, hs, h] at hg

/-- C6 witness: supervised-learning mode fails with the explicit
unsupported-mode message and produces no model graph. -/
theorem C6_non_RL_fails_witness :
    mainDispatch "SL"
        = Except.error (if "SL" = "SL"
            then "This code does not support supervised learning at this time."
            else "Select a valid learning method.") :=
  (C6_non_RL_fails "SL" (by decide)).1

/- Kernel-executable counterparts of str(i) and of the Python substring test
   s1 in s2, used by declare_variables (line 63) and
   make_recurrent_weights_positive (line 326). -/
def digitChar : ℕ → Char
  | 0 => '0' | 1 => '1' | 2 => '2' | 3 => '3' | 4 => '4'
  | 5 => '5' | 6 => '6' | 7 => '7' | 8 => '8' | _ => '9'

def natToStrAux : ℕ → ℕ → List Char
  | 0, _ => []
  | fuel + 1, n =>
    if n < 10 then [digitChar n]
    else natToStrAux fuel (n / 10) ++ [digitChar (n % 10)]

def natToStr (n : ℕ) : String := String.mk (natToStrAux (n + 1) n)

def startsWithB : List Char → List Char → Bool
  | [], _ => true
  | _ :: _, [] => false
  | a :: as, b :: bs => a == b && startsWithB as bs

def containsSeqB (needle : List Char) : List Char → Bool
  | [] => needle.isEmpty
  | b :: rest => startsWithB needle (b :: rest) || containsSeqB needle rest

/- model.py lines 48-65: the names of all trainable variables, in declaration
   order (each LSTM/prediction name is suffixed with its cell index). -/
def lstmVarNames : List String :=
  ["Wf", "Wi", "Wo", "Wc", "Uf", "Ui", "Uo", "Uc",
   "bf", "bi", "bo", "bc", "W_pred", "b_pred"]

def rlVarNames : List String :=
  ["W_pol_out", "b_pol_out", "W_val_out", "b_val_out"]

def declaredVarNames (numPredCells : ℕ) : List String :=
  (lstmVarNames.map
    (fun p => (List.range numPredCells).map (fun i => p ++ natToStr i))).flatten
    ++ rlVarNames

def nameHasWrnn (n : String) : Bool := containsSeqB "W_rnn".toList n.toList

/- model.py lines 321-330: the desaturation op assigns
   max(1e-9, var) to every trainable variable whose name contains
   the substring W_rnn, and leaves every other variable untouched. -/
def make_recurrent_weights_positive (vars : List (String × List ℚ)) :
    List (String × List ℚ) :=
  vars.map (fun nv =>
    if nameHasWrnn nv.1 then (nv.1, nv.2.map (fun x => max (1/1000000000 : ℚ) x))
    else nv)

/- The full trainable-variable set of a one-cell model, every parameter a
   single entry that has drifted to −1. -/
def desaturateFailingInput : List (String × List ℚ) :=
  (declaredVarNames 1).map (fun n => (n, [-1]))

/-- C10 (code bug): no declared variable name contains the substring W_rnn
(checked here for one- and two-cell models), so the desaturate op is the
identity; in particular the recurrent weight Uf0, drifted to −1, is still −1
afterwards, and −1 is not ≥ the claimed floor 1/10^9 — contradicting the
function's own stated purpose of making recurrent weights positive. -/
theorem C10_desaturate_is_noop :
    ((declaredVarNames 1).all (fun n => ¬ nameHasWrnn n) = true) ∧
      ((declaredVarNames 2).all (fun n => ¬ nameHasWrnn n) = true) ∧
      make_recurrent_weights_positive desaturateFailingInput = desaturateFailingInput ∧
      ("Uf0", [(-1 : ℚ)]) ∈ desaturateFailingInput ∧
      ¬ ((1/1000000000 : ℚ) ≤ -1) := by
  refine ⟨by decide, by decide, by decide, by decide, by norm_num⟩

/- model.py lines 245-282 (RL branch of optimize).  The stacked tensors have
   shape [T, B, A] (pol_out) and [T, B, 1] (mask, time_mask), embedded as
   functions of Fin-indices over ℝ (tf.log is Real.log).  Line 273:
   entropy_loss = -entropy_cost * reduce_mean(reduce_sum(mask * time_mask *
   pol_out * log(eps + pol_out), axis=1)); axis 1 of [T, B, A] is the batch
   axis, and the mean is then over the remaining [T, A] tensor. -/
noncomputable def entropy_loss (T B A : ℕ) (c eps : ℝ)
    (pol : Fin T → Fin B → Fin A → ℝ) (mask tw : Fin T → Fin B → ℝ) : ℝ :=
  -c * ((∑ t, ∑ a, ∑ b, mask t b * tw t b * pol t b a * Real.log (eps + pol t b a))
    / ((T : ℝ) * (A : ℝ)))

/- The entropy loss the spec describes: − c × mean over batch elements (and
   time steps) of the sum over actions of the masked per-probability terms. -/
noncomputable def entropy_loss_claimed (T B A : ℕ) (c eps : ℝ)
    (pol : Fin T → Fin B → Fin A → ℝ) (mask tw : Fin T → Fin B → ℝ) : ℝ :=
  -c * ((∑ t, ∑ b, ∑ a, mask t b * tw t b * pol t b a * Real.log (eps + pol t b a))
    / ((T : ℝ) * (B : ℝ)))

/- The entropy loss with the axes the code actually reduces: the sum runs
   over the batch axis, and the mean over time-step/action pairs. -/
noncomputable def entropy_loss_amended (T B A : ℕ) (c eps : ℝ)
    (pol : Fin T → Fin B → Fin A → ℝ) (mask tw : Fin T → Fin B → ℝ) : ℝ :=
  -c * ((∑ t, ∑ b, ∑ a, mask t b * tw t b * pol t b a * Real.log (eps + pol t b a))
    / ((T : ℝ) * (A : ℝ)))

/- model.py lines 279 and 282: RL_loss = pol_loss + val_loss - entropy_loss +
   pred_loss; total_loss = sup_loss + RL_loss + aux_loss + spike_loss. -/
noncomputable def RL_loss (polL valL entL predL : ℝ) : ℝ := polL + valL - entL + predL

noncomputable def total_loss (supL rlL auxL spikeL : ℝ) : ℝ := supL + rlL + auxL + spikeL

/-- C4 counterexample: with one time step, one batch element and two actions
(uniform probabilities 1/2, mask and time window 1, entropy cost 1,
ε = 10⁻⁷), the code's entropy loss is −log(10⁻⁷ + 1/2)/2 — reduce_sum runs
over axis 1, the batch axis, and reduce_mean divides by T·A = 2 — while the
claimed mean over batch of the sum over actions is −log(10⁻⁷ + 1/2); the two
differ because log(10⁻⁷ + 1/2) ≠ 0. -/
theorem C4_counterexample :
    entropy_loss 1 1 2 1 (1/10000000) (fun _ _ _ => 1/2) (fun _ _ => 1) (fun _ _ => 1)
      ≠ entropy_loss_claimed 1 1 2 1 (1/10000000) (fun _ _ _ => 1/2) (fun _ _ => 1)
          (fun _ _ => 1) := by
  have hL : Real.log (1/10000000 + 1/2) < 0 :=
    Real.log_neg (by norm_num) (by norm_num)
  simp only [entropy_loss, entropy_loss_claimed, Fin.sum_univ_one, Fin.sum_univ_two,
    Nat.cast_one, Nat.cast_ofNat]
  intro heq
  rw [show ((1:ℝ) * 1 * (1 / 2) * Real.log (1 / 10000000 + 1 / 2) +
      1 * 1 * (1 / 2) * Real.log (1 / 10000000 + 1 / 2)) =
      Real.log (1 / 10000000 + 1 / 2) from by ring] at heq
  have h2 : Real.log (1 / 10000000 + 1 / 2) = 0 := by linarith [heq]
  linarith

/-- C4 (amended): the entropy loss equals − entropy-cost × the mean over
time-step/action pairs of the sum over batch elements of
(mask × time-window × probability × log(ε + probability)) — i.e. the grand
sum divided by T × A, not a mean over batch — and this term is subtracted
from the total loss (total = sup + policy + value + prediction + aux + spike
− entropy). -/
theorem C4_entropy_loss_axes (T B A : ℕ) (c eps : ℝ)
    (pol : Fin T → Fin B → Fin A → ℝ) (mask tw : Fin T → Fin B → ℝ)
    (polL valL predL supL auxL spikeL : ℝ) :
    entropy_loss T B A c eps pol mask tw = entropy_loss_amended T B A c eps pol mask tw ∧
      total_loss supL
          (RL_loss polL valL (entropy_loss T B A c eps pol mask tw) predL) auxL spikeL
        = supL + polL + valL + predL + auxL + spikeL
            - entropy_loss T B A c eps pol mask tw := by
  constructor
  · unfold entropy_loss entropy_loss_amended
    have hsum :
        (∑ t : Fin T, ∑ a : Fin A, ∑ b : Fin B,
            mask t b * tw t b * pol t b a * Real.log (eps + pol t b a))
          = ∑ t : Fin T, ∑ b : Fin B, ∑ a : Fin A,
              mask t b * tw t b * pol t b a * Real.log (eps + pol t b a) :=
      Finset.sum_congr rfl (fun t _ => Finset.sum_comm)
    rw [hsum]
  · unfold total_loss RL_loss
    ring
